import Mathlib

set_option linter.unusedVariables false

/-!
Shallow embedding of the event-pipeline repository (Go) and proofs about it.

Conventions of the embedding:
* Go strings are Lean `String`; `*string` pointers that may be nil are `Option String`.
* `time.Time` carries only an opaque instant (`DateTime`); the program never computes
  with it, it is only copied.
* `float32` values are carried as an opaque 32-bit pattern (`Float32`); the program
  only copies them, never computes with them.
* `map[string]interface{}` metadata is an association list of opaque Go values.
* A Go `error` result is `Option GoError` (`none` = nil error).
* A nil-pointer dereference (a runtime panic) is modelled by the function returning
  `none` at that input, i.e. no normal result exists.
* The database executor behind `sqlx.DB.NamedExec` is abstracted as a parameter
  `exec : ProcessedEvent → Option GoError` giving the outcome of each insert.
* A `gin.Context` is opaque to the service code (the source never reads it in
  `Validate`/`Process`/`Store`); we keep one field so that distinct contexts exist.
* Handlers write responses through `ctx.JSON(status, gin.H{...})`; we model the list
  of responses a handler writes, in order, as `List GinResponse` (an empty list means
  the handler body wrote no response at all).
-/

/-- Opaque 32-bit float pattern. `internal/api/dtos` and `internal/storage` declare
`Value float32`; the program only copies the value, so the bit pattern suffices. -/
structure Float32 where
  bits : Nat
deriving DecidableEq, Repr

/-- Opaque instant standing for Go `time.Time`; only copied, never computed with. -/
structure DateTime where
  unixNano : Int
deriving DecidableEq, Repr

/-- A Go `interface\x7b\x7d` value as it can appear in the metadata map. -/
inductive GoValue where
  | str : String → GoValue
  | num : Int → GoValue
  | null : GoValue
deriving DecidableEq, Repr

/-- Go `map[string]interface\x7b\x7d`, as an association list. -/
abbrev Metadata := List (String × GoValue)

/-- A Go `error` value: `errors.New(msg)` or a driver error. -/
structure GoError where
  msg : String
deriving DecidableEq, Repr

/-- The `gin.Context` passed (by value) to the service methods. The service code
never reads it; we keep the request body so that distinct contexts exist. -/
structure GinContext where
  requestBody : String
deriving DecidableEq, Repr

/-- One response written by a handler via `ctx.JSON(status, gin.H\x7b...\x7d)`:
an HTTP status and the JSON object body as key/value pairs. -/
structure GinResponse where
  status : Nat
  body : List (String × String)
deriving DecidableEq, Repr

namespace dtos

/- Package `internal/api/dtos` (src/unnamed/part_002). -/

abbrev EventType := String

abbrev Source := String

/-- `dtos.Data`: the `data` object of an incoming event. -/
structure Data where
  action : String
  value : Float32
  metadata : Metadata
deriving DecidableEq, Repr

/-- `dtos.EventDTO`: the incoming event. `ID` and `UserID` are `*string` in Go,
hence `Option String` here (`none` = nil pointer / field absent). -/
structure EventDTO where
  id : Option String
  type : EventType
  source : Source
  timestamp : DateTime
  userID : Option String
  data : Data
deriving DecidableEq, Repr

end dtos

namespace storage

/- Package `internal/storage` (src/internal/storage/event.go). -/

abbrev EventType := String

abbrev Source := String

/-- `storage.Data`. -/
structure Data where
  action : String
  value : Float32
  metadata : Metadata
deriving DecidableEq, Repr

/-- `storage.ProcessedEvent`. -/
structure ProcessedEvent where
  id : String
  type : EventType
  source : Source
  timestamp : DateTime
  userID : Option String
  data : Data
deriving DecidableEq, Repr

/-- `eventRepository.InsertEvent`: builds the `ProcessedEvent`, runs the INSERT via
`NamedExec` (abstracted as `exec`), returns `(nil, err)` on a database error and
`(event, nil)` on success. -/
def InsertEvent (exec : ProcessedEvent → Option GoError) (id : String)
    (eventType : EventType) (source : Source) (timestamp : DateTime)
    (userId : Option String) (data : Data) :
    Option ProcessedEvent × Option GoError :=
  let event : ProcessedEvent :=
    { id := id, type := eventType, source := source, timestamp := timestamp,
      userID := userId, data := data }
  match exec event with
  | some err => (none, some err)
  | none => (some event, none)

end storage

namespace pipeline

/- Package `internal/pipeline` (src/unnamed/part_000, `eventService`). -/

/-- `eventService.Validate`: rejects an empty `Type`, then an empty `Source`,
via `errors.New`; performs no other check (in particular no membership check of
`Type` against the enum `user_action|sensor_data|system_log`). It reads nothing
but the two event fields and writes nothing. -/
def Validate (ctx : GinContext) (event : dtos.EventDTO) : Option GoError :=
  if event.type = "" then some { msg := "event type is required" }
  else if event.source = "" then some { msg := "event source is required" }
  else none

/-- `eventService.Process`: after a 10-nanosecond `time.Sleep` (irrelevant to the
result) it builds the `ProcessedEvent` by dereferencing `*event.ID` and copying the
remaining fields, returning a nil error. The dereference `*event.ID` panics when
`event.ID` is nil; the panic is modelled as `none` (no normal result). -/
def Process (ctx : GinContext) (event : dtos.EventDTO) :
    Option (storage.ProcessedEvent × Option GoError) :=
  match event.id with
  | none => none
  | some i =>
    some ({ id := i, type := event.type, source := event.source,
            timestamp := event.timestamp, userID := event.userID,
            data := { action := event.data.action, value := event.data.value,
                      metadata := event.data.metadata } },
          none)

/-- `eventService.Store`: loops over the batch calling `InsertEvent`. The source's
error check is `if err != nil \x7b log.Println("Event saved:", savedEvent); continue \x7d`
followed by `return err`; so a failed insert logs and moves on to the next event,
while a successful insert falls through to `return err` with `err == nil`, ending
the loop. An exhausted loop also returns nil. -/
def Store (exec : storage.ProcessedEvent → Option GoError) (ctx : GinContext) :
    List storage.ProcessedEvent → Option GoError
  | [] => none
  | event :: rest =>
    match (storage.InsertEvent exec event.id event.type event.source event.timestamp
        event.userID
        { action := event.data.action, value := event.data.value,
          metadata := event.data.metadata }).2 with
    | some _ => Store exec ctx rest
    | none => none

/-- The events on which `Store`'s loop actually calls `InsertEvent`, in order:
after a failed insert the loop continues, after a successful insert it returns. -/
def StoreAttempted (exec : storage.ProcessedEvent → Option GoError) :
    List storage.ProcessedEvent → List storage.ProcessedEvent
  | [] => []
  | event :: rest =>
    match (storage.InsertEvent exec event.id event.type event.source event.timestamp
        event.userID
        { action := event.data.action, value := event.data.value,
          metadata := event.data.metadata }).2 with
    | some _ => event :: StoreAttempted exec rest
    | none => [event]

end pipeline

namespace api

/- Package `internal/api` (src/internal/api/eventhandler.go). -/

/-- A worker created by `HandleEventsBatch`: its `Id` and the log of values sent on
its `jobChan`. The handler creates each worker with `jobChan: make(chan api.EventDTO)`
(a fresh empty channel) and neither the handler nor `Worker.Start` ever sends on it,
so the send log stays empty. -/
structure Worker where
  id : Nat
  jobChanSent : List dtos.EventDTO
deriving DecidableEq, Repr

/-- A terminal outcome a job could reach (a processed metric or a recorded failure). -/
inductive Outcome where
  | processed
  | failed
deriving DecidableEq, Repr

/-- `Worker.processJob` (src/unnamed/part_000): its body is empty, so handling a job
performs no action and records no outcome. -/
def processJob (ctx : GinContext) (job : dtos.EventDTO) : List Outcome := []

/-- `Worker.Start`: the goroutine receives each job sent on `jobChan` in turn and
runs `processJob` on it (until the context is done). The outcomes it records are
those of `processJob` over the received jobs. -/
def workerRun (ctx : GinContext) (w : Worker) : List Outcome :=
  (w.jobChanSent.map (processJob ctx)).flatten

/-- `eventController.HandleSingleEvent`: reads the body; if `json.Unmarshal` into an
`EventDTO` fails it writes `400 \x7b"error": "invalid request"\x7d` and returns;
otherwise it calls `Validate`, discards the result, and writes nothing. The
argument is the result of the unmarshal (`none` = malformed JSON). -/
def HandleSingleEvent (ctx : GinContext) (decoded : Option dtos.EventDTO) :
    List GinResponse :=
  match decoded with
  | none => [{ status := 400, body := [("error", "invalid request")] }]
  | some event =>
    let _ := pipeline.Validate ctx event
    []

/-- The JSON shapes a batch request body can have: malformed JSON, a JSON object
of the documented shape `\x7b"events": [...]\x7d`, or a bare JSON array of events. -/
inductive BatchBody where
  | malformed
  | jsonObject (events : List dtos.EventDTO)
  | jsonArray (events : List dtos.EventDTO)
deriving DecidableEq, Repr

/-- `json.Unmarshal(body, &events)` with `events []api.EventDTO`: Go's decoder
succeeds only when the top-level JSON value is an array; a JSON object (the
documented `\x7b"events": [...]\x7d` shape) or malformed input yields an error. -/
def unmarshalEvents : BatchBody → Option (List dtos.EventDTO)
  | .jsonArray events => some events
  | _ => none

/-- `eventController.HandleEventsBatch`: on unmarshal failure writes
`400 \x7b"error": "invalid request"\x7d` and returns. Otherwise it writes
`202 \x7b"status": "batch processing started"\x7d` and then, for each event index,
constructs a `Worker` with a fresh empty `jobChan` and starts it; no statement in
the loop (or anywhere else) sends a job on any worker's channel, and no length
check is performed. Returns the responses written and the workers created. -/
def HandleEventsBatch (ctx : GinContext) (body : BatchBody) :
    List GinResponse × List Worker :=
  match unmarshalEvents body with
  | none => ([{ status := 400, body := [("error", "invalid request")] }], [])
  | some events =>
    ([{ status := 202, body := [("status", "batch processing started")] }],
     (List.range events.length).map (fun i => { id := i, jobChanSent := [] }))

/-- All terminal outcomes recorded for a batch request: the outcomes produced by
every worker the handler started. -/
def batchOutcomes (ctx : GinContext) (body : BatchBody) : List Outcome :=
  (((HandleEventsBatch ctx body).2).map (workerRun ctx)).flatten

/-- `eventController.GetMetrics`: writes `200 \x7b"status": "metrics not implemented"\x7d`
(the body carries the comment "Assuming metrics are not implemented yet"). -/
def GetMetrics (ctx : GinContext) : List GinResponse :=
  [{ status := 200, body := [("status", "metrics not implemented")] }]

end api

/-- Modelled from the spec (section 3, MetricsSnapshot): the field names a
`MetricsSnapshot` JSON serialization must contain. Used only to compare the
actual `/metrics` response against the specified shape. -/
def metricsSnapshotFields : List String :=
  ["events_received", "events_processed", "events_failed",
   "average_processing_latency_ms", "current_queue_depth", "active_workers",
   "events_per_second", "uptime_seconds"]

/- Concrete fixtures used to evaluate the definitions at specific inputs. -/

/-- A request context. -/
def ctx0 : GinContext := { requestBody := "" }

/-- A different request context (for context-independence statements). -/
def ctxAlt : GinContext := { requestBody := "POST /events HTTP/1.1" }

/-- A well-formed data object. -/
def data0 : dtos.Data :=
  { action := "purchase", value := { bits := 1120421479 }, metadata := [] }

/-- A well-formed event with every optional field present. -/
def e0 : dtos.EventDTO :=
  { id := some "3f2504e0-4f89-11d3-9a0c-0305e82c3301", type := "user_action",
    source := "web", timestamp := { unixNano := 1736934600 },
    userID := some "user_123", data := data0 }

/-- A second well-formed event. -/
def e1 : dtos.EventDTO := { e0 with id := some "9b2d7f00-0000-4000-8000-000000000002" }

/-- `e0` without an id (`ID` is a nil pointer). -/
def eNilId : dtos.EventDTO := { e0 with id := none }

/-- `e0` with a non-empty `type` outside the recognized enum. -/
def eBogusType : dtos.EventDTO := { e0 with type := "bogus_type" }

/-- `e0` with an empty `type`. -/
def eEmptyType : dtos.EventDTO := { e0 with type := "" }

/-- `e0` with an empty `source`. -/
def eEmptySource : dtos.EventDTO := { e0 with source := "" }

/-- `e0` with different timestamp and user (same `type` and `source`). -/
def eOtherFields : dtos.EventDTO :=
  { e0 with
    timestamp := ({ unixNano := 99 } : DateTime),
    userID := none,
    data := ({ action := "click", value := { bits := 0 },
               metadata := [("k", GoValue.null)] } : dtos.Data) }

/-- The processed event `Process` produces from `e0`. -/
def pe0 : storage.ProcessedEvent :=
  { id := "3f2504e0-4f89-11d3-9a0c-0305e82c3301", type := "user_action",
    source := "web", timestamp := { unixNano := 1736934600 },
    userID := some "user_123",
    data := { action := "purchase", value := { bits := 1120421479 }, metadata := [] } }

/-- A processed event whose insert will fail under `execW`. -/
def peFail : storage.ProcessedEvent := { pe0 with id := "dup-1" }

/-- A processed event whose insert succeeds under `execW`. -/
def peOk : storage.ProcessedEvent := { pe0 with id := "ok-2" }

/-- A processed event positioned after the first success. -/
def peTail : storage.ProcessedEvent := { pe0 with id := "tail-3" }

/-- A database executor failing exactly on id "dup-1" (e.g. a duplicate key). -/
def execW : storage.ProcessedEvent → Option GoError :=
  fun event =>
    if event.id = "dup-1" then some { msg := "Error 1062: duplicate entry" } else none

/-- A database executor for which every insert fails (e.g. the database is down). -/
def execDown : storage.ProcessedEvent → Option GoError :=
  fun _ => some { msg := "dial tcp: connection refused" }

/- Helper lemmas (shared; not tied to a single claim). -/

/-- The second component of `InsertEvent` is exactly the database outcome for the
constructed event. -/
theorem insertEvent_snd (exec : storage.ProcessedEvent → Option GoError) (id : String)
    (eventType : storage.EventType) (source : storage.Source) (timestamp : DateTime)
    (userId : Option String) (data : storage.Data) :
    (storage.InsertEvent exec id eventType source timestamp userId data).2 =
      exec { id := id, type := eventType, source := source, timestamp := timestamp,
             userID := userId, data := data } := by
  simp only [storage.InsertEvent]
  cases exec { id := id, type := eventType, source := source, timestamp := timestamp,
               userID := userId, data := data } <;> rfl

/-- Unfolding `Store` one step: a failed insert continues with the rest, a
successful insert returns the nil error. -/
theorem store_cons (exec : storage.ProcessedEvent → Option GoError) (ctx : GinContext)
    (e : storage.ProcessedEvent) (rest : List storage.ProcessedEvent) :
    pipeline.Store exec ctx (e :: rest) =
      (match exec e with
       | some _ => pipeline.Store exec ctx rest
       | none => none) := by
  rw [pipeline.Store, insertEvent_snd]

/-- Unfolding `StoreAttempted` one step. -/
theorem storeAttempted_cons (exec : storage.ProcessedEvent → Option GoError)
    (e : storage.ProcessedEvent) (rest : List storage.ProcessedEvent) :
    pipeline.StoreAttempted exec (e :: rest) =
      (match exec e with
       | some _ => e :: pipeline.StoreAttempted exec rest
       | none => [e]) := by
  rw [pipeline.StoreAttempted, insertEvent_snd]

/-- A batch whose body is a bare JSON array is accepted with the generic status
message and one started worker per event, each with an empty send log. -/
theorem handleEventsBatch_jsonArray (ctx : GinContext) (events : List dtos.EventDTO) :
    api.HandleEventsBatch ctx (.jsonArray events) =
      ([{ status := 202, body := [("status", "batch processing started")] }],
       (List.range events.length).map (fun i => { id := i, jobChanSent := [] })) := rfl

/-- No worker started by the batch handler ever has a job sent to it. -/
theorem batch_worker_no_jobs (ctx : GinContext) (events : List dtos.EventDTO)
    (w : api.Worker) (hw : w ∈ (api.HandleEventsBatch ctx (.jsonArray events)).2) :
    w.jobChanSent = [] := by
  rw [handleEventsBatch_jsonArray] at hw
  simp only [List.mem_map] at hw
  obtain ⟨i, _, rfl⟩ := hw
  rfl

/-- A batch request produces no terminal outcome at all. -/
theorem batchOutcomes_nil (ctx : GinContext) (body : api.BatchBody) :
    api.batchOutcomes ctx body = [] := by
  unfold api.batchOutcomes api.HandleEventsBatch
  cases h : api.unmarshalEvents body with
  | none => rfl
  | some events =>
    simp [api.workerRun, api.processJob, List.map_map, Function.comp]

/- Claim theorems. -/

/-- Claim C1 (code bug): the claim says that if any `InsertEvent` call made by
`eventService.Store` fails, `Store` returns a non-nil error. The code's error
check is inverted: on a failed insert it logs "Event saved:" and continues, and
on a successful insert it returns the nil error, so `Store` can never return a
non-nil error. Evaluating the code on a one-event batch whose insert fails
(a duplicate-key error), `Store` returns nil. -/
theorem C1_store_returns_nil_despite_insert_failure :
    execDown peFail = some { msg := "dial tcp: connection refused" } ∧
    pipeline.Store execDown ctx0 [peFail] = none := ⟨rfl, rfl⟩

/-- Claim C3 (code bug): the claim says `Process` returns normally on an event
with a nil `ID`, assigning a fresh non-empty id. The code instead dereferences
the nil pointer `*event.ID`, a runtime panic: no normal result exists (modelled
as `none`). -/
theorem C3_process_panics_on_nil_id :
    eNilId.id = none ∧ pipeline.Process ctx0 eNilId = none := ⟨rfl, rfl⟩

/-- Claim C4, counterexample: the claim says `Validate` rejects a non-empty but
unrecognized `type`. On an event with `type = "bogus_type"` (not one of
user_action, sensor_data, system_log) and non-empty source, `Validate` returns
the nil error: no enum membership check exists in the code. -/
theorem C4_cex_unrecognized_type_accepted :
    eBogusType.type = "bogus_type" ∧ pipeline.Validate ctx0 eBogusType = none := by
  constructor
  · rfl
  · rfl

/-- Claim C4 as amended: `Validate` returns an error exactly when the event's
`type` is empty or its `source` is empty — no enum check — and the error message
names the offending field ("event type is required" / "event source is required"). -/
theorem C4_validate_rejects_exactly_empty_type_or_source (ctx : GinContext)
    (e : dtos.EventDTO) :
    (pipeline.Validate ctx e = none ↔ e.type ≠ "" ∧ e.source ≠ "") ∧
    (e.type = "" → pipeline.Validate ctx e = some { msg := "event type is required" }) ∧
    (e.type ≠ "" → e.source = "" →
      pipeline.Validate ctx e = some { msg := "event source is required" }) := by
  by_cases ht : e.type = "" <;> by_cases hs : e.source = "" <;>
    simp [pipeline.Validate, ht, hs]

/-- Witness for C4's amended theorem at the concrete events `eEmptyType` and
`eEmptySource`. -/
theorem C4_validate_rejects_witness :
    eEmptyType.type = "" ∧
    pipeline.Validate ctx0 eEmptyType = some { msg := "event type is required" } ∧
    eEmptySource.source = "" ∧
    pipeline.Validate ctx0 eEmptySource = some { msg := "event source is required" } :=
  ⟨rfl,
   (C4_validate_rejects_exactly_empty_type_or_source ctx0 eEmptyType).2.1 rfl,
   rfl,
   (C4_validate_rejects_exactly_empty_type_or_source ctx0 eEmptySource).2.2
     (by decide) rfl⟩

/-- Claim C8: for every event whose id is present, `Process` returns the
`ProcessedEvent` whose fields are exactly the corresponding input fields (id,
type, source, timestamp, user id, and the data's action, value and metadata),
with a nil error. -/
theorem C8_process_preserves_all_fields (ctx : GinContext) (e : dtos.EventDTO)
    (i : String) (h : e.id = some i) :
    pipeline.Process ctx e =
      some ({ id := i, type := e.type, source := e.source, timestamp := e.timestamp,
              userID := e.userID,
              data := { action := e.data.action, value := e.data.value,
                        metadata := e.data.metadata } }, none) := by
  unfold pipeline.Process
  rw [h]

/-- Witness for C8 at the concrete event `e0`, whose processed form is `pe0`. -/
theorem C8_process_preserves_witness :
    e0.id = some "3f2504e0-4f89-11d3-9a0c-0305e82c3301" ∧
    pipeline.Process ctx0 e0 = some (pe0, none) :=
  ⟨rfl, C8_process_preserves_all_fields ctx0 e0 "3f2504e0-4f89-11d3-9a0c-0305e82c3301" rfl⟩

/-- Claim C9: `Validate` is pure: its result depends only on the `type` and
`source` fields it reads — not on the `gin.Context`, not on any other event field,
and not on any ambient state — so equal inputs always give equal results and
concurrent calls cannot interfere. (Non-mutation holds because Go passes both
arguments by value and the body only reads them.) -/
theorem C9_validate_pure (ctx₁ ctx₂ : GinContext) (e₁ e₂ : dtos.EventDTO)
    (ht : e₁.type = e₂.type) (hs : e₁.source = e₂.source) :
    pipeline.Validate ctx₁ e₁ = pipeline.Validate ctx₂ e₂ := by
  unfold pipeline.Validate
  rw [ht, hs]

/-- Witness for C9: two calls with different contexts and different unread fields
(timestamp, user id, data) agree at concrete inputs. -/
theorem C9_validate_pure_witness :
    e0.type = eOtherFields.type ∧ e0.source = eOtherFields.source ∧
    pipeline.Validate ctx0 e0 = pipeline.Validate ctxAlt eOtherFields :=
  ⟨rfl, rfl, C9_validate_pure ctx0 ctxAlt e0 eOtherFields rfl rfl⟩

/-- Claim C10: `Store` returns nil as soon as one insert succeeds, leaving the
events after the first successfully inserted event unattempted; when every
insert fails the loop visits all events and still returns nil. -/
theorem C10_store_stops_at_first_success
    (exec : storage.ProcessedEvent → Option GoError) (ctx : GinContext) :
    (∀ pre e post, (∀ x ∈ pre, (exec x).isSome = true) → exec e = none →
        pipeline.Store exec ctx (pre ++ e :: post) = none ∧
        pipeline.StoreAttempted exec (pre ++ e :: post) = pre ++ [e]) ∧
    (∀ events, (∀ x ∈ events, (exec x).isSome = true) →
        pipeline.Store exec ctx events = none ∧
        pipeline.StoreAttempted exec events = events) := by
  constructor
  · intro pre e post hpre he
    induction pre with
    | nil =>
      simp [store_cons, storeAttempted_cons, he]
    | cons x xs ih =>
      have hx : (exec x).isSome = true := hpre x (List.mem_cons_self x xs)
      obtain ⟨err, herr⟩ := Option.isSome_iff_exists.mp hx
      have hrest := ih (fun y hy => hpre y (List.mem_cons_of_mem x hy))
      simp [store_cons, storeAttempted_cons, herr, hrest.1, hrest.2]
  · intro events hall
    induction events with
    | nil => exact ⟨rfl, rfl⟩
    | cons x xs ih =>
      have hx : (exec x).isSome = true := hall x (List.mem_cons_self x xs)
      obtain ⟨err, herr⟩ := Option.isSome_iff_exists.mp hx
      have hrest := ih (fun y hy => hall y (List.mem_cons_of_mem x hy))
      simp [store_cons, storeAttempted_cons, herr, hrest.1, hrest.2]

/-- Witness for C10 at concrete batches: under `execW` (fails on "dup-1",
succeeds otherwise) the batch [peFail, peOk, peTail] attempts only
[peFail, peOk] and returns nil; under `execDown` (every insert fails) the
batch [peFail, peOk] is attempted in full and still returns nil. -/
theorem C10_store_stops_witness :
    (∀ x ∈ [peFail], (execW x).isSome = true) ∧ execW peOk = none ∧
    (pipeline.Store execW ctx0 ([peFail] ++ peOk :: [peTail]) = none ∧
     pipeline.StoreAttempted execW ([peFail] ++ peOk :: [peTail]) = [peFail] ++ [peOk]) ∧
    (∀ x ∈ [peFail, peOk], (execDown x).isSome = true) ∧
    (pipeline.Store execDown ctx0 [peFail, peOk] = none ∧
     pipeline.StoreAttempted execDown [peFail, peOk] = [peFail, peOk]) :=
  ⟨by decide, by decide,
   (C10_store_stops_at_first_success execW ctx0).1 [peFail] peOk [peTail]
     (by decide) (by decide),
   by decide,
   (C10_store_stops_at_first_success execDown ctx0).2 [peFail, peOk] (by decide)⟩

/-- Claim C2, counterexample: a batch of one event is accepted (the handler
answers 202 "batch processing started"), yet no terminal outcome is ever
recorded for it — the started worker never receives a job and `processJob` is
empty — refuting "exactly one terminal outcome, never neither". -/
theorem C2_cex_accepted_event_reaches_no_outcome :
    (api.HandleEventsBatch ctx0 (.jsonArray [e0])).1 =
      [{ status := 202, body := [("status", "batch processing started")] }] ∧
    api.batchOutcomes ctx0 (.jsonArray [e0]) = [] := ⟨rfl, rfl⟩

/-- Claim C2 as amended: every event accepted via `HandleEventsBatch` is
silently dropped — the handler starts one worker per event but no job is ever
sent on any worker's channel and `processJob` does nothing, so no accepted
event reaches any terminal outcome (neither processed nor failed). -/
theorem C2_accepted_events_silently_dropped (ctx : GinContext)
    (events : List dtos.EventDTO) :
    (∀ w ∈ (api.HandleEventsBatch ctx (.jsonArray events)).2, w.jobChanSent = []) ∧
    api.batchOutcomes ctx (.jsonArray events) = [] :=
  ⟨fun w hw => batch_worker_no_jobs ctx events w hw,
   batchOutcomes_nil ctx (.jsonArray events)⟩

/-- Witness for C2's amended theorem at the one-event batch [e0] and the worker
the handler creates for it. -/
theorem C2_accepted_events_dropped_witness :
    api.Worker.mk 0 [] ∈ (api.HandleEventsBatch ctx0 (.jsonArray [e0])).2 ∧
    (api.Worker.mk 0 []).jobChanSent = [] ∧
    api.batchOutcomes ctx0 (.jsonArray [e0]) = [] :=
  ⟨by decide,
   (C2_accepted_events_silently_dropped ctx0 [e0]).1 (api.Worker.mk 0 []) (by decide),
   (C2_accepted_events_silently_dropped ctx0 [e0]).2⟩

/-- Claim C5, counterexample: an event that decodes but fails validation (empty
`type`) receives no response at all — the handler discards `Validate`'s result
and writes neither the claimed 400 naming the field nor anything else. -/
theorem C5_cex_validation_failure_gets_no_response :
    eEmptyType.type = "" ∧ api.HandleSingleEvent ctx0 (some eEmptyType) = [] :=
  ⟨rfl, rfl⟩

/-- Claim C5 as amended: on malformed JSON the single-event handler answers
400 with "invalid request"; on any body that decodes (valid or not) it calls
`Validate`, discards the result, and writes no response — no validation 400,
no 202, no generated id. -/
theorem C5_single_event_handler_responses (ctx : GinContext) :
    api.HandleSingleEvent ctx none =
      [{ status := 400, body := [("error", "invalid request")] }] ∧
    ∀ e : dtos.EventDTO, api.HandleSingleEvent ctx (some e) = [] :=
  ⟨rfl, fun e => rfl⟩

/-- Claim C6, counterexample: a request whose body has the documented shape
(a JSON object with an "events" array) holding just two items — well within the
100-item limit — is answered 400 with zero workers started, not the claimed 202
with per-item status: the handler unmarshals the body as a bare JSON array, so
the documented shape never decodes. -/
theorem C6_cex_documented_shape_small_batch_rejected :
    [e0, e1].length ≤ 100 ∧
    api.HandleEventsBatch ctx0 (.jsonObject [e0, e1]) =
      ([{ status := 400, body := [("error", "invalid request")] }], []) :=
  ⟨by decide, rfl⟩

/-- Claim C6 as amended: a body of the documented object shape always gets 400
with zero events enqueued, whatever its item count; a bare-array body of any
length — including more than 100 items — gets 202 with only a generic status
message (no per-item status, no size limit), and no job is ever enqueued. -/
theorem C6_batch_handler_rejects_shape_not_size (ctx : GinContext)
    (events : List dtos.EventDTO) :
    api.HandleEventsBatch ctx (.jsonObject events) =
      ([{ status := 400, body := [("error", "invalid request")] }], []) ∧
    (100 < events.length →
      (api.HandleEventsBatch ctx (.jsonArray events)).1 =
        [{ status := 202, body := [("status", "batch processing started")] }]) ∧
    (∀ w ∈ (api.HandleEventsBatch ctx (.jsonArray events)).2, w.jobChanSent = []) := by
  refine ⟨rfl, fun _ => ?_, fun w hw => batch_worker_no_jobs ctx events w hw⟩
  rw [handleEventsBatch_jsonArray]

/-- Witness for C6's amended theorem at a 101-item bare-array batch and at the
one-event case for the started worker. -/
theorem C6_batch_handler_witness :
    100 < (List.replicate 101 e0).length ∧
    (api.HandleEventsBatch ctx0 (.jsonArray (List.replicate 101 e0))).1 =
      [{ status := 202, body := [("status", "batch processing started")] }] ∧
    api.Worker.mk 0 [] ∈ (api.HandleEventsBatch ctx0 (.jsonArray [e1])).2 ∧
    (api.Worker.mk 0 []).jobChanSent = [] :=
  ⟨by simp,
   (C6_batch_handler_rejects_shape_not_size ctx0 (List.replicate 101 e0)).2.1 (by simp),
   by decide,
   (C6_batch_handler_rejects_shape_not_size ctx0 [e1]).2.2 (api.Worker.mk 0 [])
     (by decide)⟩

/-- Claim C7, counterexample: the `/metrics` response carries none of the
`MetricsSnapshot` fields — looking up `events_received` in the body of the only
response written finds nothing. -/
theorem C7_cex_metrics_response_lacks_snapshot_fields :
    "events_received" ∈ metricsSnapshotFields ∧
    (api.GetMetrics ctx0).map (fun r => r.body.lookup "events_received") = [none] :=
  ⟨by decide, rfl⟩

/-- Claim C7 as amended: every `GET /metrics` request is answered 200 with the
JSON body \x7b"status": "metrics not implemented"\x7d, and none of the eight
`MetricsSnapshot` fields appears in the body. -/
theorem C7_metrics_endpoint_not_implemented (ctx : GinContext) :
    api.GetMetrics ctx =
      [{ status := 200, body := [("status", "metrics not implemented")] }] ∧
    ∀ f ∈ metricsSnapshotFields,
      (api.GetMetrics ctx).map (fun r => r.body.lookup f) = [none] := by
  refine ⟨rfl, ?_⟩
  intro f hf
  fin_cases hf <;> rfl

/-- Witness for C7's amended theorem at the field `uptime_seconds`. -/
theorem C7_metrics_not_implemented_witness :
    "uptime_seconds" ∈ metricsSnapshotFields ∧
    (api.GetMetrics ctx0).map (fun r => r.body.lookup "uptime_seconds") = [none] :=
  ⟨by decide,
   (C7_metrics_endpoint_not_implemented ctx0).2 "uptime_seconds" (by decide)⟩
